import Mathlib

/-
Verification of the training orchestrator in CountingNN/main.py
(class Trainer: batch scheduling, loss selection, dataloader slicing,
SWA capture, weight perturbation, periodic reporting, final evaluation).

The Python code is shallowly embedded: pure fragments become Lean
functions; fallible fragments return an explicit error channel
mirroring the Python exception raised at each point.  External
libraries (numpy, sklearn, torch) are embedded only through the exact
operations the source applies (arange, repeat, slicing, dict update);
the two genuinely external sources of randomness (sklearn.utils.shuffle
and the torch RNG seeded by set_train_rng, the latter living in
CountingNN/utils.py which is not part of the analysed sources) are
modelled from the spec as seed-deterministic functions.
-/

/-- The Python exceptions that the embedded fragments can raise. -/
inductive PyErr where
  | typeError
  | valueError
  | notImplementedError
  | attributeError (name : String)
  | unboundLocalError
  | indexError
  | zeroDivisionError
deriving DecidableEq, Repr

/-- Decidable equality of embedded results (Except carries no instance
of its own). -/
instance {e a : Type} [DecidableEq e] [DecidableEq a] :
    DecidableEq (Except e a) := fun x y =>
  match x, y with
  | .ok v, .ok w =>
    if h : v = w then isTrue (congrArg Except.ok h)
    else isFalse (fun hc => h (Except.ok.inj hc))
  | .error v, .error w =>
    if h : v = w then isTrue (congrArg Except.error h)
    else isFalse (fun hc => h (Except.error.inj hc))
  | .ok _, .error _ => isFalse (fun hc => Except.noConfusion hc)
  | .error _, .ok _ => isFalse (fun hc => Except.noConfusion hc)

/-!  Attribute tables of class Trainer, read off the source.
The class body defines exactly these methods, and `__init__` assigns
exactly these instance attributes; `fit` reassigns only attributes that
`__init__` already created.  -/

/-- Methods defined in the body of class Trainer (main.py lines 20-371). -/
def trainer_method_names : List String :=
  ["__init__", "weight_perturbation", "preprocess_training_image_data",
   "select_loss", "dataloader", "step", "save_running_weights",
   "print_statistics", "eval_model", "fit"]

/-- Instance attributes assigned in Trainer.__init__ (main.py lines 35-59). -/
def trainer_instance_attr_names : List String :=
  ["device", "net", "criterion", "optimizer", "compute_accuracy",
   "full_epoch", "swa", "perturb_weights", "running_weights",
   "training_cycles", "batch_idx_train", "batch_idx_test", "batch_size",
   "nb_class", "X_train", "y_train", "X_test", "y_test", "train_loader",
   "test_loader", "data_is_set", "filename", "print_loss",
   "meta_state_dict", "loss_acc"]

/-- Python attribute resolution on a Trainer instance after `__init__`
(and unchanged by `fit`, which only reassigns existing attributes). -/
def trainer_has_attr (a : String) : Bool :=
  trainer_method_names.contains a || trainer_instance_attr_names.contains a

/-- `getattr` on a Trainer instance: missing attributes raise AttributeError. -/
def getattr_model (a : String) : Except PyErr Unit :=
  if trainer_has_attr a then .ok () else .error (.attributeError a)

/-!  select_loss (main.py lines 107-132).  -/

/-- The `loss` argument of select_loss: either a string token or an
arbitrary callable object (identified by a tag). -/
inductive LossArg where
  | str (s : String)
  | callableFn (id : Nat)
deriving DecidableEq, Repr

/-- The criterion select_loss can return.  `custom` carries the callable
argument unchanged, mirroring `criterion = loss`. -/
inductive Criterion where
  | bceWithLogits
  | crossEntropy
  | mse
  | custom (f : LossArg)
deriving DecidableEq, Repr

/-- `hasattr(loss, "__call__")`: strings are not callable. -/
def has_call : LossArg → Bool
  | .str _ => false
  | .callableFn _ => true

/-- The Python comparison `nb_classes > 2` as evaluated on the elif chain
(only reached when nb_classes is not None). -/
def nb_gt_two : Option Nat → Bool
  | some k => decide (2 < k)
  | none => false

/-- Trainer.select_loss, main.py lines 107-132: the if/elif chain in
source order. -/
def select_loss (loss : LossArg) (nb_classes : Option Nat) : Except PyErr Criterion :=
  if loss = .str "ce" ∧ nb_classes = none then
    .error .valueError
  else if loss = .str "ce" ∧ nb_classes = some 1 then
    .ok .bceWithLogits
  else if loss = .str "ce" ∧ nb_gt_two nb_classes = true then
    .ok .crossEntropy
  else if loss = .str "mse" then
    .ok .mse
  else if has_call loss = true then
    .ok (.custom loss)
  else
    .error .notImplementedError

/-!  dataloader (main.py lines 134-148).
A sample is a list of channel planes (leading axis of `X[batch_num]`);
`X[batch_num][:batch_size]` is a take along that axis.  Indexing a
partition out of range raises IndexError (features first, then targets,
matching source order).  -/

/-- Trainer.dataloader, main.py lines 134-148. -/
def dataloader_model {β : Type} (X_train y_train X_test y_test : List (List β))
    (batch_size batch_num : Nat) (mode : String) : Except PyErr (List β × List β) :=
  if mode = "test" then
    if batch_num < X_test.length then
      if batch_num < y_test.length then
        .ok ((X_test.getD batch_num []).take batch_size,
             (y_test.getD batch_num []).take batch_size)
      else .error .indexError
    else .error .indexError
  else
    if batch_num < X_train.length then
      if batch_num < y_train.length then
        .ok ((X_train.getD batch_num []).take batch_size,
             (y_train.getD batch_num []).take batch_size)
      else .error .indexError
    else .error .indexError

/-!  Batch index schedules (main.py lines 326-335).
`np.arange(n).repeat(r + 1)[:C]` repeats each index r + 1 times
consecutively (element-wise repeat, not tiling) and truncates to C;
the result is then permuted by sklearn.utils.shuffle with a fixed seed.  -/

/-- numpy element-wise repeat: every element of `l` is repeated `k`
times consecutively. -/
def np_repeat (l : List Nat) (k : Nat) : List Nat :=
  (l.map (fun x => List.replicate k x)).flatten

/-- The schedule before shuffling:
`np.arange(n).repeat(training_cycles // n + 1)[:training_cycles]`
(main.py lines 326-331; Lean Nat division is total where Python would
raise ZeroDivisionError for n = 0, see the n >= 1 hypotheses below). -/
def batch_idx_raw (n C : Nat) : List Nat :=
  (np_repeat (List.range n) (C / n + 1)).take C

/-- Modelled from the spec: sklearn.utils.shuffle applies a random
permutation determined entirely by its random_state seed (sklearn is an
external library; only the permutation property and seed-determinism
are relied upon). -/
def sk_shuffle (seed : Nat) (l : List Nat) : List Nat :=
  l.rotate (seed % (l.length + 1))

/-- The batch index schedule as built in fit (main.py lines 326-335):
repeat-and-truncate, then the seeded shuffle. -/
def make_batch_idx (n C seed : Nat) : List Nat :=
  sk_shuffle seed (batch_idx_raw n C)

/-!  step (main.py lines 150-168).
The def has a single parameter (`def step(self: int)`), yet fit invokes
`self.step(e)`, a bound call carrying the instance plus the cycle
index: two arguments against one parameter.  The body, had it been
entered, reads the schedule, calls dataloader, and then looks up
`self.train_step`, an attribute the class never defines; the loss
appends at lines 160 and 165 are sequenced after those lookups.  -/

/-- Number of parameters of `def step(self: int)` (main.py line 150). -/
def step_def_num_params : Nat := 1

/-- Number of arguments of the bound call `self.step(e)` (main.py line
352): the instance plus the cycle index. -/
def step_call_num_args : Nat := 2

/-- The orchestrator state that step touches. -/
structure StepState where
  batch_idx_tr : List Nat
  batch_idx_te : List Nat
  train_loss_len : Nat
  test_loss_len : Nat
deriving DecidableEq, Repr

/-- The body of Trainer.step (main.py lines 156-168) executed against a
cycle index e: schedule read and dataloader call, then the train_step
lookup, then (only afterwards) the train-loss append; symmetrically for
the test side. -/
def step_body (st : StepState) (e : Nat) : Except PyErr StepState :=
  if e < st.batch_idx_tr.length then
    match getattr_model "train_step" with
    | .error err => .error err
    | .ok _ =>
      let st1 : StepState :=
        { st with train_loss_len := st.train_loss_len + 1 }
      if e < st1.batch_idx_te.length then
        match getattr_model "test_step" with
        | .error err => .error err
        | .ok _ => .ok { st1 with test_loss_len := st1.test_loss_len + 1 }
      else .error .indexError
  else .error .indexError

/-- The bound call `self.step(e)`: Python checks the arity before the
body runs, and two arguments against one parameter raise TypeError. -/
def step_call (st : StepState) (e : Nat) : Except PyErr StepState :=
  if step_call_num_args = step_def_num_params then step_body st e
  else .error .typeError

/-- Discriminates which exception an embedded step result raised. -/
def raises_attribute_error : Except PyErr StepState → Bool
  | .error (.attributeError _) => true
  | _ => false

/-!  save_running_weights (main.py lines 170-181).  -/

/-- The fixed SWA window (`swa_epochs = 30`, main.py line 174). -/
def swa_window : Nat := 30

/-- Trainer.save_running_weights at cycle e: when
`training_cycles - e <= 30`, store the current snapshot in the dict at
slot `30 - (training_cycles - e)`; otherwise leave the dict unchanged. -/
def save_running_weights {α : Type} (training_cycles e : Nat)
    (rw : Nat → Option α) (cur : α) : Nat → Option α :=
  fun j =>
    if training_cycles - e ≤ swa_window then
      if j = swa_window - (training_cycles - e) then some cur else rw j
    else rw j

/-- The running-weights dict after the first m cycles of a fit run with
the given total cycle count, where `snap e` is the parameter snapshot
current at cycle e (main.py lines 351-354 restricted to the SWA call). -/
def run_swa_capture {α : Type} (training_cycles m : Nat) (snap : Nat → α) :
    Nat → Option α :=
  (List.range m).foldl
    (fun rw e => save_running_weights training_cycles e rw (snap e))
    (fun _ => none)

/-- The post-training SWA phase of fit (main.py lines 364-367): when swa
is set, `net.load_state_dict(self.average_weights(...))` resolves the
attribute `average_weights` on the instance before anything else. -/
def fit_swa_load (swa : Bool) : Except PyErr Unit :=
  if swa then
    match getattr_model "average_weights" with
    | .error err => .error err
    | .ok _ => .ok ()
  else .ok ()

/-!  Weight perturbation (main.py lines 61-74 and 312-316, 355-356).
fit stores the caller's `perturb_weights` argument in
`self.perturb_weights` unchanged (line 280) and, when it is the bool
True, binds the canonical dict only to the *local* variable (line 316).
weight_perturbation subscripts `self.perturb_weights` at lines 66-68,
which raises TypeError whenever that attribute is a bool.  -/

/-- The `perturb_weights` value: the bool argument, or the schedule dict
with amplitude a, decay gamma and period e_p. -/
inductive PerturbArg where
  | pybool (b : Bool)
  | pydict (a : Rat) (gamma : Rat) (e_p : Nat)
deriving DecidableEq, Repr

/-- Python truthiness of the value: True for a nonempty dict. -/
def perturb_truthy : PerturbArg → Bool
  | .pybool b => b
  | .pydict _ _ _ => true

/-- fit lines 280 and 312-316: the pair
(self.perturb_weights, local perturb_weights) after the setup block. -/
def fit_perturb_locals (arg : PerturbArg) : PerturbArg × PerturbArg :=
  let selfAttr := arg
  let localArg :=
    if perturb_truthy selfAttr = true then
      match arg with
      | .pybool _ => PerturbArg.pydict (1 / 100) (3 / 2) 50
      | _ => arg
    else arg
  (selfAttr, localArg)

/-- A parameter tensor: opaque, with noise application recorded
symbolically (variance parameters a, gamma and the cycle index, plus
the RNG state consumed by the draw). -/
inductive TensorVal where
  | base (id : Nat)
  | noised (t : TensorVal) (a : Rat) (gamma : Rat) (e : Nat) (rng : Nat)
deriving DecidableEq, Repr

/-- Modelled from the spec: the torch RNG seeded by set_train_rng
(CountingNN/utils.py, outside the analysed sources) advances
deterministically from its state. -/
def lcg (s : Nat) : Nat :=
  (6364136223846793005 * s + 1442695040888963407) % (2 ^ 64)

/-- Add one independent noise draw to every tensor of the state dict,
threading the RNG state (main.py lines 70-73). -/
def perturb_state_dict (sd : List (String × TensorVal)) (a gamma : Rat)
    (e : Nat) (rng : Nat) : List (String × TensorVal) × Nat :=
  sd.foldl
    (fun acc kv =>
      (acc.1 ++ [(kv.1, TensorVal.noised kv.2 a gamma e acc.2)], lcg acc.2))
    ([], rng)

/-- Trainer.weight_perturbation at cycle e against the stored
`self.perturb_weights` value: the subscripts at lines 66-68 raise
TypeError on a bool; on a dict, noise with variance a / (1 + e) ^ gamma
is added to every tensor exactly when (e + 1) % e_p == 0, and the state
dict is untouched on every other cycle. -/
def weight_perturbation (selfPW : PerturbArg) (e : Nat)
    (sd : List (String × TensorVal)) (rng : Nat) :
    Except PyErr (List (String × TensorVal) × Nat) :=
  match selfPW with
  | .pybool _ => .error .typeError
  | .pydict a gamma e_p =>
    if e_p = 0 then .error .zeroDivisionError
    else if perturb_truthy selfPW && ((e + 1) % e_p == 0) then
      .ok (perturb_state_dict sd a gamma e rng)
    else .ok (sd, rng)

/-!  Periodic reporting (main.py lines 284, 337-338, 351-359, 183-190).
fit stores the caller value in `self.print_loss` (line 284) but the
loop condition at line 357 reads the *local* variable `print_loss`,
which is assigned only inside `if self.print_loss is None` (lines
337-338).  When the caller supplies a value, the first evaluation of
the loop condition therefore raises UnboundLocalError.
print_statistics itself begins by reading `self.accuracy_metrics`
(line 188), an attribute that is never assigned anywhere.  -/

/-- The value the loop condition reads for `print_loss`: 100 when the
kwarg is absent, UnboundLocalError on first use when it is supplied. -/
def print_loss_resolve (kw : Option Nat) : Except PyErr Nat :=
  match kw with
  | none => .ok 100
  | some _ => .error .unboundLocalError

/-- The reporting condition of main.py lines 357-358:
`any([e == 0, (e + 1) % print_loss == 0, e == training_cycles - 1])`. -/
def print_trigger (training_cycles print_loss e : Nat) : Bool :=
  (e == 0) || ((e + 1) % print_loss == 0) || (e == training_cycles - 1)

/-- Trainer.print_statistics, main.py lines 183-190: the first statement
reads `self.accuracy_metrics`. -/
def print_statistics_model : Except PyErr Unit :=
  match getattr_model "accuracy_metrics" with
  | .error err => .error err
  | .ok _ => .ok ()

/-!  eval_model (main.py lines 224-256).
Modelled from the spec for the per-sample loss: `self.test_step` (the
StepExecutor eval step of spec section 4.4) is absent from the source,
so it is abstracted as an oracle mapping a (features, targets) pair to
a loss value.  The control flow around it follows the source exactly:
the full_epoch branch iterates `self.test_loader` and divides by the
iteration count c (ZeroDivisionError when the loader is empty); the
other branch iterates `range(len(self.X_test))`, feeding each index to
dataloader directly, and divides by `len(self.X_test)`.  -/

/-- Trainer.eval_model, returning the printed average together with the
list of (features, targets) pairs passed to the per-sample loss step,
in evaluation order. -/
def eval_model {β : Type} (full_epoch : Bool)
    (test_loader : List (List β × List β))
    (X_test y_test : List (List β)) (batch_size : Nat)
    (test_step : List β × List β → Rat) :
    Except PyErr (Rat × List (List β × List β)) :=
  if full_epoch then
    let pairs := test_loader
    if pairs.length = 0 then .error .zeroDivisionError
    else .ok ((pairs.map test_step).sum / (pairs.length : Rat), pairs)
  else
    match (List.range X_test.length).mapM
        (fun idx => dataloader_model ([] : List (List β)) [] X_test y_test
          batch_size idx "test") with
    | .error err => .error err
    | .ok pairs =>
      if X_test.length = 0 then .error .zeroDivisionError
      else .ok ((pairs.map test_step).sum / (X_test.length : Rat), pairs)

/-- The pair list the non-full branch evaluates, written out: the test
samples in positions 0..len(X_test)-1, each truncated by batch_size
(this is the spec-side formula the amended claim compares against). -/
def eval_sampled_pairs {β : Type} (X_test y_test : List (List β))
    (batch_size : Nat) : List (List β × List β) :=
  (List.range X_test.length).map
    (fun idx => ((X_test.getD idx []).take batch_size,
                 (y_test.getD idx []).take batch_size))

/-!  Determinism of the orchestrator randomness (main.py lines 326-335,
61-74; set_train_rng at line 36).  Everything random in the loop is a
function of the seeds and the input sizes: the schedules of the batch
seed, and the perturbation noise stream of the training RNG seed and
the perturbation configuration.  -/

/-- One recorded noise draw: the cycle it happened in, the tensor shape
drawn for, the variance parameters a and gamma in force, and the drawn
value. -/
structure NoiseEvt where
  cycle : Nat
  shape : List Nat
  var_a : Rat
  var_gamma : Rat
  value : Nat
deriving DecidableEq, Repr

/-- Modelled from the spec: a normal_ draw consumes the RNG state and is
a deterministic function of that state and the tensor shape. -/
def draw_value (s : Nat) (shape : List Nat) : Nat :=
  lcg (s + shape.foldl (fun a d => a * 31 + d) 7)

/-- One perturbation cycle draws noise for every parameter tensor in
order, threading the RNG state. -/
def draw_all (a gamma : Rat) (e : Nat) (shapes : List (List Nat))
    (s : Nat) : List NoiseEvt × Nat :=
  shapes.foldl
    (fun acc sh => (acc.1 ++ [⟨e, sh, a, gamma, draw_value acc.2 sh⟩], lcg acc.2))
    ([], s)

/-- The perturbation noise stream of a whole run: draws happen exactly
on the cycles where (e + 1) % e_p == 0 with a dict-valued schedule (a
bool-valued `self.perturb_weights` never reaches a draw, the subscript
raising first, so its stream of completed draws is empty). -/
def noise_seq (perturb : PerturbArg) (training_cycles : Nat)
    (shapes : List (List Nat)) (rng_seed : Nat) : List NoiseEvt :=
  match perturb with
  | .pybool _ => []
  | .pydict a gamma e_p =>
    if e_p = 0 then []
    else
      ((List.range training_cycles).foldl
        (fun acc e =>
          if (e + 1) % e_p = 0 then
            let d := draw_all a gamma e shapes acc.2
            (acc.1 ++ d.1, d.2)
          else acc)
        (([], rng_seed) : List NoiseEvt × Nat)).1

/-- A fit invocation as far as its randomness is concerned: the input
partition sizes, the cycle count, the two seeds, the perturbation
configuration and the parameter-tensor shapes, plus fields that do not
feed any random choice (filename, print_loss, batch_size). -/
structure FitCfg where
  n_train : Nat
  n_test : Nat
  training_cycles : Nat
  batch_seed : Nat
  rng_seed : Nat
  perturb : PerturbArg
  param_shapes : List (List Nat)
  filename : String
  print_loss_kw : Option Nat
  batch_size : Nat

/-- The (batch_idx_train, batch_idx_test) pair fit builds (lines
326-335): both schedules use the same batch_seed kwarg. -/
def fit_schedules (c : FitCfg) : List Nat × List Nat :=
  (make_batch_idx c.n_train c.training_cycles c.batch_seed,
   make_batch_idx c.n_test c.training_cycles c.batch_seed)

/-- The noise stream of the run described by the configuration. -/
def fit_noise (c : FitCfg) : List NoiseEvt :=
  noise_seq c.perturb c.training_cycles c.param_shapes c.rng_seed

/-!  fit (main.py lines 258-371), control flow up to the first failure.
The call at lines 303-304,
`self.preprocess_training_image_data(X_train, y_train, X_test, y_test,
batch_size, kwargs.get("memory_alloc", 4))`, passes six positional
arguments plus the bound instance to a method whose def (lines 76-80)
has exactly four parameters, so Python raises TypeError there, before
the schedules are built and before any training cycle runs.  -/

/-- An input array, abstracted to its shape. -/
structure NdArray where
  shape : List Nat
deriving DecidableEq, Repr

/-- The externally visible effects of a fit run: how many entries were
appended to the train and test loss accumulators, and which files were
written. -/
structure Effects where
  train_loss_len : Nat
  test_loss_len : Nat
  saved_files : List String
deriving DecidableEq, Repr

/-- Number of parameters of `def preprocess_training_image_data(self,
labels_all, images_test_all, labels_test_all)` (main.py lines 76-80). -/
def preprocess_def_num_params : Nat := 4

/-- Number of arguments of the bound call at main.py lines 303-304: the
instance plus six positionals. -/
def fit_preprocess_call_num_args : Nat := 7

/-- Modelled from the spec: sklearn.model_selection.train_test_split
holds out a test_size fraction (default 0.15) of the leading axis,
deterministically under its seed.  Returned in source order
(X_train, X_test, y_train, y_test). -/
def train_test_split_model (X y : NdArray) :
    NdArray × NdArray × NdArray × NdArray :=
  match X.shape, y.shape with
  | nX :: restX, _nY :: restY =>
    let nTest := (nX * 15 + 99) / 100
    (⟨(nX - nTest) :: restX⟩, ⟨nTest :: restX⟩,
     ⟨(nX - nTest) :: restY⟩, ⟨nTest :: restY⟩)
  | _, _ => (X, X, y, y)

/-- One iteration of the training loop (main.py lines 351-359): the
bound call `self.step(e)` is arity-checked first; behind it (never
reached in any real run) sit the loss appends, the SWA capture, the
perturbation call gated by the truthiness of the local perturb dict,
and the reporting condition, whose evaluation forces the local
print_loss value. -/
def fit_cycle (training_cycles : Nat) (swa : Bool)
    (selfPW localPW : PerturbArg) (print_loss_num : Except PyErr Nat)
    (e : Nat) (eff : Effects) (rw : Nat → Option Nat) (rng : Nat) :
    Except PyErr (Effects × (Nat → Option Nat) × Nat) :=
  if step_call_num_args = step_def_num_params then
    let eff1 : Effects :=
      { eff with train_loss_len := eff.train_loss_len + 1,
                 test_loss_len := eff.test_loss_len + 1 }
    let rw1 := if swa then save_running_weights training_cycles e rw e else rw
    match (if perturb_truthy localPW then weight_perturbation selfPW e [] rng
           else .ok ([], rng)) with
    | .error err => .error err
    | .ok (_, rng1) =>
      match print_loss_num with
      | .error err => .error err
      | .ok pl =>
        if print_trigger training_cycles pl e then
          match print_statistics_model with
          | .error err => .error err
          | .ok _ => .ok (eff1, rw1, rng1)
        else .ok (eff1, rw1, rng1)
  else .error .typeError

/-- Accumulator of the embedded training loop: the outcome so far, the
loss effects, the running-weights dict and the RNG state. -/
structure LoopAcc where
  res : Except PyErr Unit
  eff : Effects
  rw : Nat → Option Nat
  rng : Nat

/-- fit from line 312 on: perturbation setup, schedule construction,
the training loop, the torch.save of the parameter snapshot, the final
evaluation, the SWA phase and the closing plot_losses call. -/
def fit_after_preprocess (Xtr _ytr Xte _yte : NdArray)
    (training_cycles : Nat) (swa : Bool) (perturbArg : PerturbArg)
    (batch_seed : Nat) (print_loss_kw : Option Nat) (filename : String)
    (eff0 : Effects) : Except PyErr Unit × Effects :=
  let pw := fit_perturb_locals perturbArg
  let nTrain := Xtr.shape.headD 0
  let nTest := Xte.shape.headD 0
  let _batch_idx_tr := make_batch_idx nTrain training_cycles batch_seed
  let _batch_idx_te := make_batch_idx nTest training_cycles batch_seed
  let print_loss_num := print_loss_resolve print_loss_kw
  let loopRes : LoopAcc :=
    (List.range training_cycles).foldl
      (fun acc e =>
        match acc.res with
        | .error err => { acc with res := .error err }
        | .ok _ =>
          match fit_cycle training_cycles swa pw.1 pw.2 print_loss_num
              e acc.eff acc.rw acc.rng with
          | .error err => { acc with res := .error err }
          | .ok (eff1, rw1, rng1) => ⟨.ok (), eff1, rw1, rng1⟩)
      ⟨.ok (), eff0, fun _ => none, 1⟩
  match loopRes.res with
  | .error err => (.error err, loopRes.eff)
  | .ok _ =>
    let eff := loopRes.eff
    let eff2 : Effects :=
      { eff with saved_files := eff.saved_files ++ [filename ++ ".tar"] }
    match eval_model true ([] : List (List Nat × List Nat)) [] [] 1
        (fun _ => 0) with
    | .error err => (.error err, eff2)
    | .ok _ =>
      match fit_swa_load swa with
      | .error err => (.error err, eff2)
      | .ok _ =>
        match getattr_model "plot_losses" with
        | .error err => (.error err, eff2)
        | .ok _ => (.ok (), eff2)

/-- Trainer.fit (main.py lines 258-371): attribute assignments, the
optional train/test split, then the preprocess call whose arity Python
rejects.  The result pairs the outcome with the effects accumulated up
to that point. -/
def fit_model (X_train y_train : NdArray) (X_test y_test : Option NdArray)
    (training_cycles _batch_size : Nat) (swa : Bool)
    (perturbArg : PerturbArg) (batch_seed : Nat)
    (print_loss_kw : Option Nat) : Except PyErr Unit × Effects :=
  let eff0 : Effects := ⟨0, 0, []⟩
  let split :=
    match X_test, y_test with
    | some xt, some yt => (X_train, xt, y_train, yt)
    | _, _ => train_test_split_model X_train y_train
  match split with
  | (xtr, xte, ytr, yte) =>
    if fit_preprocess_call_num_args = preprocess_def_num_params then
      fit_after_preprocess xtr ytr xte yte training_cycles swa perturbArg
        batch_seed print_loss_kw "./model" eff0
    else (.error .typeError, eff0)

/-!  Helper lemmas: structure of the repeat-and-truncate schedule.  -/

theorem map_const_replicate {α : Type} (b : Nat) :
    ∀ l : List α, l.map (fun _ => b) = List.replicate l.length b := by
  intro l
  induction l with
  | nil => rfl
  | cons x l ih => simp [List.replicate_succ, ih]

theorem np_repeat_range_eq (k : Nat) (hk : 0 < k) :
    ∀ n : Nat, np_repeat (List.range n) k
      = (List.range (n * k)).map (fun p => p / k) := by
  intro n
  induction n with
  | zero => simp [np_repeat]
  | succ n ih =>
    rw [List.range_succ, Nat.succ_mul, List.range_add, List.map_append]
    unfold np_repeat at ih ⊢
    rw [List.map_append, List.flatten_append]
    rw [ih]
    congr 1
    · simp only [List.map_cons, List.map_nil, List.flatten_cons,
        List.flatten_nil, List.append_nil]
      rw [List.map_map]
      have hmap : (List.range k).map ((fun p => p / k) ∘ (fun x => n * k + x))
          = (List.range k).map (fun _ => n) := by
        apply List.map_congr_left
        intro x hx
        have hxk : x < k := List.mem_range.mp hx
        show (n * k + x) / k = n
        rw [Nat.add_comm, Nat.mul_comm, Nat.add_mul_div_left x n hk,
          Nat.div_eq_of_lt hxk]
        exact Nat.zero_add n
      rw [hmap, map_const_replicate, List.length_range]

theorem div_eq_iff_aux (k i C : Nat) (hk : 0 < k) :
    C / k = i ↔ i * k ≤ C ∧ C < i * k + k := by
  constructor
  · rintro rfl
    refine ⟨Nat.div_mul_le_self C k, ?_⟩
    have h1 := Nat.div_add_mod C k
    have h2 := Nat.mod_lt C hk
    have h3 : C / k * k = k * (C / k) := Nat.mul_comm _ _
    omega
  · rintro ⟨hlo, hhi⟩
    have hle : i ≤ C / k := (Nat.le_div_iff_mul_le hk).mpr hlo
    have hlt : C / k < i + 1 := by
      rw [Nat.div_lt_iff_lt_mul hk, Nat.succ_mul]
      omega
    omega

theorem count_range_map_div (k : Nat) (hk : 0 < k) (i : Nat) :
    ∀ C : Nat, ((List.range C).map (fun p => p / k)).count i
      = min k (C - i * k) := by
  intro C
  induction C with
  | zero => simp
  | succ C ih =>
    rw [List.range_succ, List.map_append, List.count_append]
    simp only [List.map_cons, List.map_nil]
    rw [List.count_cons, List.count_nil, ih]
    by_cases h : C / k = i
    · have h2 := (div_eq_iff_aux k i C hk).mp h
      simp only [h, beq_self_eq_true, if_true]
      omega
    · have hrange : ¬(i * k ≤ C ∧ C < i * k + k) :=
        fun hc => h ((div_eq_iff_aux k i C hk).mpr hc)
      have hbeq : ((C / k : Nat) == i) = false := by
        simp [h]
      rw [hbeq]
      simp only [Bool.false_eq_true, if_false]
      omega

theorem le_n_mul_div_succ (n C : Nat) (hn : 0 < n) :
    C ≤ n * (C / n + 1) := by
  have h1 := Nat.div_add_mod C n
  have h2 := Nat.mod_lt C hn
  have h3 : n * (C / n + 1) = n * (C / n) + n := Nat.mul_succ n (C / n)
  omega

theorem batch_idx_raw_eq (n C : Nat) (hn : 0 < n) :
    batch_idx_raw n C = (List.range C).map (fun p => p / (C / n + 1)) := by
  unfold batch_idx_raw
  rw [np_repeat_range_eq (C / n + 1) (Nat.succ_pos _) n]
  rw [← List.map_take, List.take_range]
  have : min C (n * (C / n + 1)) = C :=
    Nat.min_eq_left (le_n_mul_div_succ n C hn)
  rw [this]

theorem batch_idx_raw_length (n C : Nat) (hn : 0 < n) :
    (batch_idx_raw n C).length = C := by
  rw [batch_idx_raw_eq n C hn]; simp

theorem batch_idx_raw_count (n C i : Nat) (hn : 0 < n) :
    (batch_idx_raw n C).count i
      = min (C / n + 1) (C - i * (C / n + 1)) := by
  rw [batch_idx_raw_eq n C hn]
  exact count_range_map_div (C / n + 1) (Nat.succ_pos _) i C

theorem sk_shuffle_perm (seed : Nat) (l : List Nat) :
    (sk_shuffle seed l).Perm l :=
  List.rotate_perm l _

/-!  Helper lemmas: the SWA capture fold and the evaluation loop.  -/

theorem run_swa_capture_step {α : Type} (C m : Nat) (snap : Nat → α) :
    run_swa_capture C (m + 1) snap
      = save_running_weights C m (run_swa_capture C m snap) (snap m) := by
  unfold run_swa_capture
  rw [List.range_succ, List.foldl_append, List.foldl_cons, List.foldl_nil]

theorem run_swa_capture_eq (C : Nat) (hC : 30 ≤ C) (snap : Nat → Nat) :
    ∀ m, m ≤ C → ∀ j, run_swa_capture C m snap j
      = if j < 30 ∧ C - 30 + j < m then some (snap (C - 30 + j)) else none := by
  intro m
  induction m with
  | zero =>
    intro _ j
    simp [run_swa_capture]
  | succ m ih =>
    intro hm j
    have hm' : m ≤ C := Nat.le_of_succ_le hm
    rw [run_swa_capture_step]
    simp only [save_running_weights, swa_window]
    by_cases hcap : C - m ≤ 30
    · rw [if_pos hcap]
      by_cases hj : j = 30 - (C - m)
      · rw [if_pos hj]
        have hidx : C - 30 + j = m := by omega
        have hcond : j < 30 ∧ C - 30 + j < m + 1 := by omega
        rw [if_pos hcond, hidx]
      · rw [if_neg hj, ih hm' j]
        by_cases hcond : j < 30 ∧ C - 30 + j < m
        · rw [if_pos hcond,
            if_pos (And.intro hcond.1 (Nat.lt_succ_of_lt hcond.2))]
        · have hcond2 : ¬(j < 30 ∧ C - 30 + j < m + 1) := by
            intro hc
            exact hj (by omega)
          rw [if_neg hcond, if_neg hcond2]
    · rw [if_neg hcap, ih hm' j]
      have h1 : ¬(j < 30 ∧ C - 30 + j < m) := by omega
      have h2 : ¬(j < 30 ∧ C - 30 + j < m + 1) := by omega
      rw [if_neg h1, if_neg h2]

theorem mapM_dataloader_test {β : Type} (X_test y_test : List (List β))
    (bs : Nat) :
    ∀ l : List Nat, (∀ x ∈ l, x < X_test.length ∧ x < y_test.length) →
      (l.mapM (fun idx => dataloader_model ([] : List (List β)) [] X_test
          y_test bs idx "test"))
        = .ok (l.map (fun idx => ((X_test.getD idx []).take bs,
                                  (y_test.getD idx []).take bs))) := by
  intro l
  induction l with
  | nil => intro _; rfl
  | cons x l ih =>
    intro h
    have hx := h x (List.mem_cons_self x l)
    have hl : ∀ y ∈ l, y < X_test.length ∧ y < y_test.length :=
      fun y hy => h y (List.mem_cons_of_mem x hy)
    rw [List.mapM_cons]
    have hd : dataloader_model ([] : List (List β)) [] X_test y_test bs x "test"
        = .ok ((X_test.getD x []).take bs, (y_test.getD x []).take bs) := by
      unfold dataloader_model
      rw [if_pos rfl, if_pos hx.1, if_pos hx.2]
    rw [hd, ih hl]
    rfl

/-!  Claim theorems.  -/

/-- Claim C1: the end-to-end scenario (train images and binary labels of
shape (200, 1, 32, 32), training_cycles = 60, batch_size = 1, no SWA or
perturbation) does not return a trained model: fit raises TypeError at
the preprocess_training_image_data call (seven arguments against four
parameters), before any training cycle, so both loss accumulators stay
empty and no parameter-snapshot file is written. -/
theorem C1_fit_scenario_raises :
    fit_model ⟨[200, 1, 32, 32]⟩ ⟨[200, 1, 32, 32]⟩ none none 60 1 false
        (.pybool false) 1 none
      = (.error .typeError, ⟨0, 0, []⟩) := rfl

/-- Claim C2 counterexample: with partition size 3 and cycle count 4 the
schedule is a permutation of [0, 0, 1, 1], so index 2 occurs 0 times,
which is neither floor(4/3) = 1 nor floor(4/3) + 1 = 2. -/
theorem C2_schedule_counterexample :
    (make_batch_idx 3 4 1).length = 4 ∧
    (make_batch_idx 3 4 1).count 2 = 0 ∧
    ¬((make_batch_idx 3 4 1).count 2 = 4 / 3 ∨
      (make_batch_idx 3 4 1).count 2 = 4 / 3 + 1) := by decide

/-- Claim C2, amended: for partition size n >= 1 and cycle count C the
schedule has length exactly C, and index i occurs
min (C / n + 1) (C - i * (C / n + 1)) times (element-wise repetition
then truncation): at most floor(C/n) + 1 times, but possibly fewer than
floor(C/n) times, even zero.  The count is the same for any permutation
of the pre-shuffle schedule, so it does not depend on the shuffle model. -/
theorem C2_schedule_length_and_counts (n C i seed : Nat) (l : List Nat)
    (hn : 0 < n) (hl : (batch_idx_raw n C).Perm l) :
    (make_batch_idx n C seed).length = C ∧
    (make_batch_idx n C seed).count i
      = min (C / n + 1) (C - i * (C / n + 1)) ∧
    l.count i = min (C / n + 1) (C - i * (C / n + 1)) := by
  unfold make_batch_idx
  refine ⟨?_, ?_, ?_⟩
  · rw [(sk_shuffle_perm seed (batch_idx_raw n C)).length_eq]
    exact batch_idx_raw_length n C hn
  · rw [(sk_shuffle_perm seed (batch_idx_raw n C)).count_eq]
    exact batch_idx_raw_count n C i hn
  · rw [← hl.count_eq]
    exact batch_idx_raw_count n C i hn

/-- Witness for the amended C2 at n = 3, C = 4, i = 2, seed = 1. -/
theorem C2_schedule_length_and_counts_witness :
    (0 < 3 ∧ (batch_idx_raw 3 4).Perm (batch_idx_raw 3 4)) ∧
    ((make_batch_idx 3 4 1).length = 4 ∧
     (make_batch_idx 3 4 1).count 2 = min (4 / 3 + 1) (4 - 2 * (4 / 3 + 1)) ∧
     (batch_idx_raw 3 4).count 2 = min (4 / 3 + 1) (4 - 2 * (4 / 3 + 1))) :=
  ⟨⟨by decide, List.Perm.refl _⟩,
   C2_schedule_length_and_counts 3 4 2 1 (batch_idx_raw 3 4) (by decide)
     (List.Perm.refl _)⟩

/-- Claim C3: the select_loss case table.  ("ce", None) raises
ValueError; ("ce", 1) gives binary cross-entropy with logits; ("ce", k)
for k > 2 gives categorical cross-entropy; ("mse", anything) gives mean
squared error; a callable is returned as-is; any other string token
raises NotImplementedError; and ("ce", 2) falls through to the
generic-callable branch, where the string is rejected with
NotImplementedError. -/
theorem C3_select_loss_table (k : Nat) (nb nb2 nb3 : Option Nat)
    (s : String) (fid : Nat)
    (hk : 2 < k) (hs1 : s ≠ "ce") (hs2 : s ≠ "mse") :
    select_loss (.str "ce") none = .error .valueError ∧
    select_loss (.str "ce") (some 1) = .ok .bceWithLogits ∧
    select_loss (.str "ce") (some k) = .ok .crossEntropy ∧
    select_loss (.str "mse") nb = .ok .mse ∧
    select_loss (.callableFn fid) nb2 = .ok (.custom (.callableFn fid)) ∧
    select_loss (.str s) nb3 = .error .notImplementedError ∧
    select_loss (.str "ce") (some 2) = .error .notImplementedError := by
  have hk1 : ¬((some k : Option Nat) = some 1) := by
    simp
    omega
  have hgt : nb_gt_two (some k) = true := by
    simp [nb_gt_two]
    omega
  have h1 : ¬(LossArg.str s = LossArg.str "ce") := by simp [hs1]
  have h2 : ¬(LossArg.str s = LossArg.str "mse") := by simp [hs2]
  refine ⟨rfl, rfl, ?_, rfl, rfl, ?_, rfl⟩
  · simp [select_loss, hk1, hgt]
  · simp [select_loss, h1, h2, has_call]

/-- Witness for C3 at k = 3, nb = none, nb2 = some 5, nb3 = some 7,
s = "bogus", fid = 7. -/
theorem C3_select_loss_table_witness :
    (2 < 3 ∧ ("bogus" : String) ≠ "ce" ∧ ("bogus" : String) ≠ "mse") ∧
    (select_loss (.str "ce") none = .error .valueError ∧
     select_loss (.str "ce") (some 1) = .ok .bceWithLogits ∧
     select_loss (.str "ce") (some 3) = .ok .crossEntropy ∧
     select_loss (.str "mse") none = .ok .mse ∧
     select_loss (.callableFn 7) (some 5) = .ok (.custom (.callableFn 7)) ∧
     select_loss (.str "bogus") (some 7) = .error .notImplementedError ∧
     select_loss (.str "ce") (some 2) = .error .notImplementedError) :=
  ⟨⟨by decide, by decide, by decide⟩,
   C3_select_loss_table 3 none (some 5) (some 7) "bogus" 7 (by decide)
     (by decide) (by decide)⟩

/-- Claim C4 counterexample: with a test partition of two samples and
training_cycles = 5, the non-full evaluation branch performs exactly 2
positional draws (indices 0 and 1), not the 5 schedule-derived draws
the claim states; the schedule of length 5 is never consulted. -/
theorem C4_eval_counterexample :
    (eval_model false ([] : List (List Nat × List Nat)) [[1], [2]] [[1], [2]]
        1 (fun _ => 1)).map Prod.snd
      = .ok [([1], [1]), ([2], [2])] ∧
    ([([1], [1]), ([2], [2])] : List (List Nat × List Nat)).length = 2 ∧
    (make_batch_idx 2 5 1).length = 5 ∧
    (2 : Nat) ≠ 5 := by decide

/-- Claim C4, amended: full-dataset mode iterates every element of
self.test_loader exactly once and averages len(test_loader) per-sample
losses (fit never populates test_loader, and on an empty loader the
average raises ZeroDivisionError); the non-full mode iterates the test
partition positionally at indices 0..m-1, one draw per sample, and
averages exactly m = len(X_test) losses.  Neither count depends on
training_cycles and the non-full draws are not schedule-derived. -/
theorem C4_eval_counts {β : Type} (test_loader : List (List β × List β))
    (X_test y_test : List (List β)) (bs : Nat)
    (f : List β × List β → Rat)
    (hne : test_loader ≠ []) (hX : 0 < X_test.length)
    (hY : X_test.length ≤ y_test.length) :
    eval_model true test_loader X_test y_test bs f
      = .ok ((test_loader.map f).sum / (test_loader.length : Rat),
             test_loader) ∧
    eval_model false test_loader X_test y_test bs f
      = .ok (((eval_sampled_pairs X_test y_test bs).map f).sum
               / (X_test.length : Rat),
             eval_sampled_pairs X_test y_test bs) ∧
    (eval_sampled_pairs X_test y_test bs).length = X_test.length ∧
    eval_model true ([] : List (List β × List β)) X_test y_test bs f
      = .error .zeroDivisionError := by
  have hX0 : ¬(X_test.length = 0) := by omega
  have hmem : ∀ x ∈ List.range X_test.length,
      x < X_test.length ∧ x < y_test.length := by
    intro x hx
    have := List.mem_range.mp hx
    omega
  refine ⟨?_, ?_, by simp [eval_sampled_pairs], rfl⟩
  · have hlen : ¬(test_loader.length = 0) := by
      intro h0
      exact hne (List.length_eq_zero.mp h0)
    unfold eval_model
    rw [if_pos rfl, if_neg hlen]
  · unfold eval_model
    rw [if_neg Bool.false_ne_true,
      mapM_dataloader_test X_test y_test bs (List.range X_test.length) hmem]
    show (if X_test.length = 0
        then (Except.error PyErr.zeroDivisionError
              : Except PyErr (Rat × List (List β × List β)))
        else _) = _
    rw [if_neg hX0]
    rfl

/-- Witness for the amended C4 on a one-element loader and a
two-sample test partition. -/
theorem C4_eval_counts_witness :
    (([([1], [1])] : List (List Nat × List Nat)) ≠ [] ∧
     0 < ([[1], [2]] : List (List Nat)).length ∧
     ([[1], [2]] : List (List Nat)).length
       ≤ ([[1], [2]] : List (List Nat)).length) ∧
    (eval_model true ([([1], [1])] : List (List Nat × List Nat)) [[1], [2]]
        [[1], [2]] 1 (fun _ => 1)
      = .ok ((([([1], [1])] : List (List Nat × List Nat)).map
                (fun _ => (1 : Rat))).sum
               / (([([1], [1])] : List (List Nat × List Nat)).length : Rat),
             [([1], [1])]) ∧
     eval_model false ([([1], [1])] : List (List Nat × List Nat)) [[1], [2]]
        [[1], [2]] 1 (fun _ => 1)
      = .ok (((eval_sampled_pairs ([[1], [2]] : List (List Nat)) [[1], [2]] 1).map
                (fun _ => (1 : Rat))).sum
               / (([[1], [2]] : List (List Nat)).length : Rat),
             eval_sampled_pairs ([[1], [2]] : List (List Nat)) [[1], [2]] 1) ∧
     (eval_sampled_pairs ([[1], [2]] : List (List Nat)) [[1], [2]] 1).length
       = ([[1], [2]] : List (List Nat)).length ∧
     eval_model true ([] : List (List Nat × List Nat)) [[1], [2]] [[1], [2]]
        1 (fun _ => 1)
      = .error .zeroDivisionError) :=
  ⟨⟨by decide, by decide, by decide⟩,
   C4_eval_counts [([1], [1])] [[1], [2]] [[1], [2]] 1 (fun _ => 1)
     (by decide) (by decide) (by decide)⟩

/-- Claim C5: with perturb_weights = True the canonical dict
(a = 0.01, gamma = 1.5, e_p = 50) is built but bound only to the local
variable, while self.perturb_weights keeps the bool True; every call of
weight_perturbation therefore raises TypeError (subscripting a bool) at
every cycle, including e = 0, instead of perturbing only when
(e + 1) % 50 == 0.  On a dict-valued schedule the cadence does behave
as the claim describes: untouched at e = 0, perturbed at e = 49. -/
theorem C5_perturbation_wiring :
    (fit_perturb_locals (.pybool true)).1 = PerturbArg.pybool true ∧
    (fit_perturb_locals (.pybool true)).2
      = PerturbArg.pydict (1 / 100) (3 / 2) 50 ∧
    perturb_truthy (fit_perturb_locals (.pybool true)).2 = true ∧
    (∀ (sd : List (String × TensorVal)) (rng e : Nat),
      weight_perturbation (fit_perturb_locals (.pybool true)).1 e sd rng
        = .error .typeError) ∧
    (∀ (sd : List (String × TensorVal)) (rng : Nat),
      weight_perturbation (PerturbArg.pydict (1 / 100) (3 / 2) 50) 0 sd rng
        = .ok (sd, rng)) ∧
    (∀ (sd : List (String × TensorVal)) (rng : Nat),
      weight_perturbation (PerturbArg.pydict (1 / 100) (3 / 2) 50) 49 sd rng
        = .ok (perturb_state_dict sd (1 / 100) (3 / 2) 49 rng)) :=
  ⟨rfl, rfl, rfl, fun _ _ _ => rfl, fun _ _ => rfl, fun _ _ => rfl⟩

/-- Claim C6: with training_cycles = 100 the SWA capture stores the
cycle-e snapshot at slot e - 70 exactly on cycles 70..99, filling slots
0..29 and no slot before cycle 70; but the subsequent averaging step of
fit resolves self.average_weights, an attribute Trainer never defines,
so the run raises AttributeError instead of loading the element-wise
mean of the 30 snapshots. -/
theorem C6_swa_capture_window :
    (∀ (snap : Nat → Nat) (j : Nat),
      run_swa_capture 100 100 snap j
        = if j < 30 then some (snap (70 + j)) else none) ∧
    (∀ (snap : Nat → Nat) (j : Nat), run_swa_capture 100 70 snap j = none) ∧
    trainer_has_attr "average_weights" = false ∧
    fit_swa_load true = .error (.attributeError "average_weights") := by
  refine ⟨?_, ?_, by decide, by decide⟩
  · intro snap j
    rw [run_swa_capture_eq 100 (by decide) snap 100 (Nat.le_refl 100) j]
    have h70 : (100 : Nat) - 30 = 70 := rfl
    rw [h70]
    by_cases hj : j < 30
    · rw [if_pos ⟨hj, by omega⟩, if_pos hj]
    · rw [if_neg (fun hc => hj hc.1), if_neg hj]
  · intro snap j
    rw [run_swa_capture_eq 100 (by decide) snap 70 (by decide) j]
    have hcond : ¬(j < 30 ∧ 100 - 30 + j < 70) := by omega
    rw [if_neg hcond]

/-- Claim C7: two fit invocations that agree on the inputs and seeds
that feed the randomness (partition sizes, cycle count, batch_seed,
training RNG seed, perturbation configuration, parameter shapes)
produce identical batch_idx_train and batch_idx_test schedules and
identical perturbation noise streams, whatever their other
configuration fields (filename, print_loss, batch_size) are. -/
theorem C7_two_run_determinism (c1 c2 : FitCfg)
    (h1 : c1.n_train = c2.n_train) (h2 : c1.n_test = c2.n_test)
    (h3 : c1.training_cycles = c2.training_cycles)
    (h4 : c1.batch_seed = c2.batch_seed) (h5 : c1.rng_seed = c2.rng_seed)
    (h6 : c1.perturb = c2.perturb)
    (h7 : c1.param_shapes = c2.param_shapes) :
    fit_schedules c1 = fit_schedules c2 ∧ fit_noise c1 = fit_noise c2 := by
  unfold fit_schedules fit_noise
  rw [h1, h2, h3, h4, h5, h6, h7]
  exact ⟨rfl, rfl⟩

/-- Witness for C7: two configurations sharing all randomness-relevant
fields but differing in filename, print_loss and batch_size. -/
theorem C7_two_run_determinism_witness :
    fit_schedules ⟨5, 3, 7, 1, 1, .pydict (1 / 100) (3 / 2) 50, [[2, 2]],
        "a", none, 1⟩
      = fit_schedules ⟨5, 3, 7, 1, 1, .pydict (1 / 100) (3 / 2) 50, [[2, 2]],
        "b", some 10, 32⟩ ∧
    fit_noise ⟨5, 3, 7, 1, 1, .pydict (1 / 100) (3 / 2) 50, [[2, 2]],
        "a", none, 1⟩
      = fit_noise ⟨5, 3, 7, 1, 1, .pydict (1 / 100) (3 / 2) 50, [[2, 2]],
        "b", some 10, 32⟩ :=
  C7_two_run_determinism _ _ rfl rfl rfl rfl rfl rfl rfl

/-- Claim C8: the reporting trigger set matches the claim only in the
default case: when print_loss is not supplied the local period is 100
and the condition fires exactly at e = 0, (e + 1) % 100 == 0 and
e = training_cycles - 1; but when the caller supplies print_loss, the
loop condition reads the never-assigned local variable and raises
UnboundLocalError, and print_statistics itself always raises
AttributeError on the unset self.accuracy_metrics, so no statistics are
ever printed. -/
theorem C8_reporting_wiring :
    print_loss_resolve none = .ok 100 ∧
    print_loss_resolve (some 10) = .error .unboundLocalError ∧
    (∀ training_cycles e : Nat,
      print_trigger training_cycles 100 e = true
        ↔ e = 0 ∨ (e + 1) % 100 = 0 ∨ e = training_cycles - 1) ∧
    trainer_has_attr "accuracy_metrics" = false ∧
    print_statistics_model = .error (.attributeError "accuracy_metrics") := by
  refine ⟨rfl, rfl, ?_, by decide, by decide⟩
  intro training_cycles e
  simp [print_trigger, or_assoc]

/-- Claim C9 counterexample: on a Trainer fresh from __init__ extended
with one-element schedules, the bound call step(0) raises TypeError
(two arguments against the single parameter of the def), not an
AttributeError. -/
theorem C9_step_counterexample :
    step_call ⟨[0], [0], 0, 0⟩ 0 = .error .typeError ∧
    raises_attribute_error (step_call ⟨[0], [0], 0, 0⟩ 0) = false := by
  decide

/-- Claim C9, amended: calling step(e) on a Trainer fails before
recording any loss, but with a TypeError (the def takes one parameter,
the bound call passes two arguments); the class indeed defines neither
train_step nor test_step, so the body itself, entered with a valid
schedule index, would stop with AttributeError at the train_step lookup
— again before any loss append. -/
theorem C9_step_failure_modes (st : StepState) (e : Nat)
    (he : e < st.batch_idx_tr.length) :
    step_call st e = .error .typeError ∧
    trainer_has_attr "train_step" = false ∧
    trainer_has_attr "test_step" = false ∧
    step_body st e = .error (.attributeError "train_step") := by
  refine ⟨rfl, by decide, by decide, ?_⟩
  unfold step_body
  rw [if_pos he]
  rfl

/-- Witness for the amended C9 at the one-element-schedule state and
cycle 0. -/
theorem C9_step_failure_modes_witness :
    (0 : Nat) < (StepState.mk [0] [0] 0 0).batch_idx_tr.length ∧
    (step_call ⟨[0], [0], 0, 0⟩ 0 = .error .typeError ∧
     trainer_has_attr "train_step" = false ∧
     trainer_has_attr "test_step" = false ∧
     step_body ⟨[0], [0], 0, 0⟩ 0 = .error (.attributeError "train_step")) :=
  ⟨by decide, C9_step_failure_modes ⟨[0], [0], 0, 0⟩ 0 (by decide)⟩

/-- Claim C10: for every in-range batch index b and every mode,
dataloader returns (X[b][:batch_size], y[b][:batch_size]) of the
partition the mode selects: a take along the leading axis of the single
sample at position b, so everything returned belongs to that one sample
and batch_size never controls how many samples are drawn. -/
theorem C10_dataloader_single_sample {β : Type}
    (X_train y_train X_test y_test : List (List β)) (bs b : Nat)
    (mode : String)
    (h1 : b < X_train.length) (h2 : b < y_train.length)
    (h3 : b < X_test.length) (h4 : b < y_test.length) :
    dataloader_model X_train y_train X_test y_test bs b mode
      = .ok (((if mode = "test" then X_test else X_train).getD b []).take bs,
             ((if mode = "test" then y_test else y_train).getD b []).take bs) ∧
    ((if mode = "test" then X_test else X_train).getD b []).take bs
      ⊆ (if mode = "test" then X_test else X_train).getD b [] ∧
    ((if mode = "test" then y_test else y_train).getD b []).take bs
      ⊆ (if mode = "test" then y_test else y_train).getD b [] := by
  refine ⟨?_, List.take_subset bs _, List.take_subset bs _⟩
  unfold dataloader_model
  by_cases hm : mode = "test"
  · simp only [if_pos hm, if_pos h3, if_pos h4]
  · simp only [if_neg hm, if_pos h1, if_pos h2]

/-- Witness for C10 at two-sample partitions, b = 1, batch_size = 1,
mode = "train". -/
theorem C10_dataloader_single_sample_witness :
    ((1 : Nat) < ([[1, 2], [3, 4]] : List (List Nat)).length ∧
     (1 : Nat) < ([[5, 6], [7, 8]] : List (List Nat)).length ∧
     (1 : Nat) < ([[9], [10]] : List (List Nat)).length ∧
     (1 : Nat) < ([[11], [12]] : List (List Nat)).length) ∧
    (dataloader_model ([[1, 2], [3, 4]] : List (List Nat)) [[5, 6], [7, 8]]
        [[9], [10]] [[11], [12]] 1 1 "train"
      = .ok (((if ("train" : String) = "test" then [[9], [10]]
                else [[1, 2], [3, 4]]).getD 1 []).take 1,
             ((if ("train" : String) = "test" then [[11], [12]]
                else [[5, 6], [7, 8]]).getD 1 []).take 1) ∧
     ((if ("train" : String) = "test" then [[9], [10]]
        else [[1, 2], [3, 4]]).getD 1 []).take 1
       ⊆ (if ("train" : String) = "test" then [[9], [10]]
           else [[1, 2], [3, 4]]).getD 1 [] ∧
     ((if ("train" : String) = "test" then [[11], [12]]
        else [[5, 6], [7, 8]]).getD 1 []).take 1
       ⊆ (if ("train" : String) = "test" then [[11], [12]]
           else [[5, 6], [7, 8]]).getD 1 []) :=
  ⟨⟨by decide, by decide, by decide, by decide⟩,
   C10_dataloader_single_sample [[1, 2], [3, 4]] [[5, 6], [7, 8]]
     [[9], [10]] [[11], [12]] 1 1 "train" (by decide) (by decide)
     (by decide) (by decide)⟩
